import Mathlib

/-!
Verification of the Goal/Ledger state machine of the-most-expensive-button
(src/server.js), a small Express server whose ledger is an in-memory object
mutated by a Stripe webhook handler and two administrative endpoints.

The embedding below translates the JavaScript directly:
JS numbers that hold integer values become `Int` (admin-supplied values go
through `parseInt` and may be negative); the parsed `session.metadata.amount`
of a webhook event becomes a `Nat`, because the server itself writes that
metadata at checkout-session creation from `CURRENCY_AMOUNTS`, whose values
are positive integers.  External collaborators (Stripe signature
verification, the checkout-session gateway call) are modelled by their
results, passed in as `Except` parameters.
-/

/-- The in-memory `projectData` object (server.js lines 13-18). -/
structure ProjectData where
  totalClicks : Int
  currentGoal : Int
  totalRaised : Int
  charityName : String
  deriving Repr, DecidableEq

/-- Initial `projectData` (server.js lines 13-18). -/
def initialProjectData : ProjectData :=
  { totalClicks := 0
    currentGoal := 1000000
    totalRaised := 0
    charityName := "Jocum" }

/-- Default Pix key string of the admin configuration (server.js line 28). -/
def defaultCharityPix : String :=
  "00020101021126580014br.gov.bcb.pix01366e42077e-6c9b-4a55-ba08-88660925fc9452040000530398654041.005802BR5923NICHOLAS RODRIGUES LEAL6009SAO PAULO622905251K3T2FRSJ124PDBG9EV21BG186304442A"

/-- The mutable `adminConfig` object (server.js lines 21-29), restricted to the
fields touched by the settings/reset endpoints (credentials and the token set
are outside the claims' scope). -/
structure AdminConfig where
  amount : Int
  donationPercent : Int
  charityPhone : String
  charityWebsite : String
  charityPix : String
  deriving Repr, DecidableEq

/-- Initial `adminConfig` (server.js lines 21-29). -/
def initialAdminConfig : AdminConfig :=
  { amount := 100
    donationPercent := 50
    charityPhone := ""
    charityWebsite := ""
    charityPix := defaultCharityPix }

/-- `PRICE_IDS` (server.js lines 35-45): currency code to Stripe price id. -/
def PRICE_IDS : List (String × String) :=
  [("BRL", "price_1RupyW7hbmQxAWthDISrdEUV"),
   ("USD", "price_1RuveS7hbmQxAWthvgdy1PME"),
   ("EUR", "price_1RuvfN7hbmQxAWthWkPgcVEs"),
   ("GBP", "price_1RuvkX7hbmQxAWthaVVKQ5Vq"),
   ("JPY", "price_1RuvmD7hbmQxAWthNkg0uyyU"),
   ("CAD", "price_1RuvrY7hbmQxAWthdafnau9n"),
   ("AUD", "price_1RuvsP7hbmQxAWthXJDYOvNA"),
   ("CHF", "price_1Ruvsq7hbmQxAWthjt9hlR3v"),
   ("MXN", "price_1RuvtH7hbmQxAWthKLMNpqrS")]

/-- `CURRENCY_AMOUNTS` (server.js lines 48-58): per-click amount in the
currency's smallest unit. -/
def CURRENCY_AMOUNTS : List (String × Nat) :=
  [("BRL", 100), ("USD", 100), ("EUR", 100), ("GBP", 100), ("JPY", 150),
   ("CAD", 100), ("AUD", 100), ("CHF", 100), ("MXN", 2000)]

/-- `COUNTRY_CURRENCY_MAP` (server.js lines 61-67). -/
def COUNTRY_CURRENCY_MAP : List (String × String) :=
  [("BR", "BRL"), ("US", "USD"), ("DE", "EUR"), ("FR", "EUR"), ("IT", "EUR"),
   ("ES", "EUR"), ("NL", "EUR"), ("BE", "EUR"), ("AT", "EUR"), ("PT", "EUR"),
   ("IE", "EUR"), ("FI", "EUR"), ("GR", "EUR"), ("LU", "EUR"), ("MT", "EUR"),
   ("CY", "EUR"), ("SK", "EUR"), ("SI", "EUR"), ("EE", "EUR"), ("LV", "EUR"),
   ("LT", "EUR"), ("GB", "GBP"), ("JP", "JPY"), ("CA", "CAD"), ("AU", "AUD"),
   ("CH", "CHF"), ("MX", "MXN")]

/-- `getCurrencyForCountry` (server.js lines 99-101):
`COUNTRY_CURRENCY_MAP[country] || 'USD'`. -/
def getCurrencyForCountry (country : String) : String :=
  (COUNTRY_CURRENCY_MAP.lookup country).getD "USD"

/-- A parsed Stripe webhook event as the handler uses it: its `type`, the
payment session id `data.object.id` (carried by every real event, although the
handler never reads it), and the integer value of `data.object.metadata.amount`
when present and non-empty (the server writes it from `CURRENCY_AMOUNTS` at
session creation, so it is a natural number). -/
structure StripeEvent where
  type : String
  sessionId : String
  metadataAmount : Option Nat
  deriving Repr, DecidableEq

/-- The `checkout.session.completed` branch of the webhook handler
(server.js lines 176-182): increment `totalClicks`, add
`parseInt(session.metadata.amount || '100')` to `totalRaised`, then double
`currentGoal` if `totalRaised >= currentGoal`.  Nothing is reset. -/
def applyCompletedSession (amount : Nat) (p : ProjectData) : ProjectData :=
  let clicks := p.totalClicks + 1
  let raised := p.totalRaised + (amount : Int)
  let goal := if p.currentGoal ≤ raised then p.currentGoal * 2 else p.currentGoal
  { p with totalClicks := clicks, totalRaised := raised, currentGoal := goal }

/-- Result of one `POST /webhook` delivery: HTTP status, whether the JSON body
`\x7breceived: true\x7d` was sent (the error path sends a text error instead),
and the ledger afterwards. -/
structure WebhookResult where
  status : Nat
  receivedTrue : Bool
  project : ProjectData
  deriving Repr, DecidableEq

/-- `POST /webhook` (server.js lines 161-192).  The outcome of
`stripe.webhooks.constructEvent` is passed in: `Except.error` is the thrown
signature-verification failure (caught and answered with 400), `Except.ok` the
verified event. -/
def webhook (verified : Except String StripeEvent) (p : ProjectData) :
    WebhookResult :=
  match verified with
  | .error _ => { status := 400, receivedTrue := false, project := p }
  | .ok ev =>
    if ev.type = "checkout.session.completed" then
      { status := 200
        receivedTrue := true
        project := applyCompletedSession (ev.metadataAmount.getD 100) p }
    else
      { status := 200, receivedTrue := true, project := p }

/-- Fold a list of confirmed-payment amounts through the webhook's completed
branch. -/
def applyPayments (amts : List Nat) (p : ProjectData) : ProjectData :=
  amts.foldl (fun q a => applyCompletedSession a q) p

/-- `noCrossing amts p` holds when, along the run of `amts` from `p`, the
tracked metric (`totalRaised`) stays strictly below `currentGoal` after every
event, i.e. the goal is never reached. -/
def noCrossing : List Nat → ProjectData → Bool
  | [], _ => true
  | a :: rest, p =>
    decide (p.totalRaised + (a : Int) < p.currentGoal)
      && noCrossing rest (applyCompletedSession a p)

/-- Result of one `POST /api/create-checkout-session` request: HTTP status,
redirect url if any, the ledger afterwards, and whether the Stripe gateway was
called. -/
structure CheckoutResult where
  status : Nat
  url : Option String
  project : ProjectData
  gatewayCalled : Bool
  deriving Repr, DecidableEq

/-- `POST /api/create-checkout-session` (server.js lines 121-158).  The
express-validator check `isIn(Object.keys(PRICE_IDS))` and the `!priceId`
guard both amount to membership in `PRICE_IDS`; the gateway call
`stripe.checkout.sessions.create` is passed in as its result (`Except.ok` the
session url, `Except.error` a thrown gateway failure caught as 500). -/
def createCheckoutSession (currency : String)
    (gateway : Except Unit String) (p : ProjectData) : CheckoutResult :=
  match PRICE_IDS.lookup currency with
  | none => { status := 400, url := none, project := p, gatewayCalled := false }
  | some _ =>
    match gateway with
    | .ok u =>
      { status := 200, url := some u, project := p, gatewayCalled := true }
    | .error _ =>
      { status := 500, url := none, project := p, gatewayCalled := true }

/-- The request body of `POST /api/admin/settings` (server.js lines 246-256):
each field is optional; numeric fields carry the `parseInt` result, which for
an arbitrary admin-supplied string may be any integer. -/
structure SettingsUpdate where
  amount : Option Int
  currentGoal : Option Int
  donationPercent : Option Int
  charityName : Option String
  charityPhone : Option String
  charityWebsite : Option String
  charityPix : Option String
  deriving Repr, DecidableEq

/-- A settings update that provides no field. -/
def emptyUpdate : SettingsUpdate :=
  { amount := none, currentGoal := none, donationPercent := none
    charityName := none, charityPhone := none, charityWebsite := none
    charityPix := none }

/-- Result of an administrative endpoint: HTTP status and both state objects
afterwards. -/
structure AdminResult where
  status : Nat
  project : ProjectData
  admin : AdminConfig
  deriving Repr, DecidableEq

/-- `POST /api/admin/settings` (server.js lines 245-277): every provided field
overwrites the corresponding state field unconditionally (`if (x !== undefined)
... = parseInt(x)` or direct assignment); the handler always answers 200. -/
def adminSettings (u : SettingsUpdate) (p : ProjectData) (a : AdminConfig) :
    AdminResult :=
  { status := 200
    project :=
      { p with
        currentGoal := u.currentGoal.getD p.currentGoal
        charityName := u.charityName.getD p.charityName }
    admin :=
      { a with
        amount := u.amount.getD a.amount
        donationPercent := u.donationPercent.getD a.donationPercent
        charityPhone := u.charityPhone.getD a.charityPhone
        charityWebsite := u.charityWebsite.getD a.charityWebsite
        charityPix := u.charityPix.getD a.charityPix } }

/-- `POST /api/admin/reset` (server.js lines 280-293): restores `currentGoal`
and `charityName` and the admin configuration to their defaults, explicitly
keeping `totalClicks` and `totalRaised`. -/
def adminReset (p : ProjectData) (a : AdminConfig) : AdminResult :=
  { status := 200
    project := { p with currentGoal := 1000000, charityName := "Jocum" }
    admin :=
      { a with
        amount := 100
        donationPercent := 50
        charityPhone := ""
        charityWebsite := ""
        charityPix := defaultCharityPix } }

/-- One state-mutating operation of the server, for reachability statements:
a confirmed payment applied by the webhook, an admin settings update, or an
admin reset. -/
inductive Op where
  | payment (amount : Nat)
  | settings (u : SettingsUpdate)
  | reset
  deriving Repr, DecidableEq

/-- Apply one operation to the full mutable state. -/
def stepOp (s : ProjectData × AdminConfig) (op : Op) :
    ProjectData × AdminConfig :=
  match op with
  | .payment amt => (applyCompletedSession amt s.1, s.2)
  | .settings u =>
    let r := adminSettings u s.1 s.2
    (r.project, r.admin)
  | .reset =>
    let r := adminReset s.1 s.2
    (r.project, r.admin)

/-- Run a sequence of operations from a state. -/
def runOps (ops : List Op) (s : ProjectData × AdminConfig) :
    ProjectData × AdminConfig :=
  ops.foldl stepOp s

/-- An operation never supplies a non-positive goal: true for payments and
resets, and for a settings update exactly when any provided `currentGoal` is
positive. -/
def opGoalOk : Op → Bool
  | .settings u =>
    match u.currentGoal with
    | none => true
    | some g => decide (0 < g)
  | _ => true

/-- Every operation of the sequence satisfies `opGoalOk`. -/
def goodOps (ops : List Op) : Bool :=
  ops.all opGoalOk

/-- Unfolding of the completed-session update into explicit field assignments
(the goal check reads the already-updated `totalRaised`, as in the source). -/
theorem applyCompletedSession_eq (amount : Nat) (p : ProjectData) :
    applyCompletedSession amount p =
      { p with
        totalClicks := p.totalClicks + 1
        totalRaised := p.totalRaised + (amount : Int)
        currentGoal :=
          if p.currentGoal ≤ p.totalRaised + (amount : Int) then
            p.currentGoal * 2
          else p.currentGoal } := rfl

/-- Claim C1 as stated is false on the code: from the state with clickCount 0,
goal 3, totalRaised 0, three confirmed payments of 1 unit each leave the goal
doubled to 6 but the counters at 3 and 3 — they are not reset to zero. -/
theorem c1_counterexample :
    (applyPayments [1, 1, 1] ⟨0, 3, 0, "Jocum"⟩).currentGoal = 6 ∧
    (applyPayments [1, 1, 1] ⟨0, 3, 0, "Jocum"⟩).totalClicks = 3 ∧
    (applyPayments [1, 1, 1] ⟨0, 3, 0, "Jocum"⟩).totalRaised = 3 ∧
    ¬ ((applyPayments [1, 1, 1] ⟨0, 3, 0, "Jocum"⟩).totalClicks = 0 ∧
       (applyPayments [1, 1, 1] ⟨0, 3, 0, "Jocum"⟩).totalRaised = 0) := by
  decide

/-- Claim C1 amended: whenever a confirmed-payment event pushes `totalRaised`
to or past the goal, the resulting state has the goal doubled while
`clickCount` and `totalRaised` keep their incremented values — no reset
occurs. -/
theorem c1_goal_doubled_counters_kept (p : ProjectData) (amt : Nat)
    (h : p.currentGoal ≤ p.totalRaised + (amt : Int)) :
    (applyCompletedSession amt p).currentGoal = 2 * p.currentGoal ∧
    (applyCompletedSession amt p).totalClicks = p.totalClicks + 1 ∧
    (applyCompletedSession amt p).totalRaised = p.totalRaised + (amt : Int) := by
  rw [applyCompletedSession_eq]
  refine ⟨?_, rfl, rfl⟩
  simp only [if_pos h]
  ring

/-- Witness for C1: the third 1-unit payment of the concrete scenario, from
the state reached after the first two, doubles the goal of 3 to 6 and leaves
clickCount 3 and totalRaised 3. -/
theorem c1_witness :
    (⟨2, 3, 2, "Jocum"⟩ : ProjectData).currentGoal ≤
      (⟨2, 3, 2, "Jocum"⟩ : ProjectData).totalRaised + ((1 : Nat) : Int) ∧
    (applyCompletedSession 1 ⟨2, 3, 2, "Jocum"⟩).currentGoal = 6 ∧
    (applyCompletedSession 1 ⟨2, 3, 2, "Jocum"⟩).totalClicks = 3 ∧
    (applyCompletedSession 1 ⟨2, 3, 2, "Jocum"⟩).totalRaised = 3 := by
  obtain ⟨h1, h2, h3⟩ :=
    c1_goal_doubled_counters_kept ⟨2, 3, 2, "Jocum"⟩ 1 (by decide)
  refine ⟨by decide, ?_, ?_, ?_⟩
  · rw [h1]; decide
  · rw [h2]; decide
  · rw [h3]; decide

/-- The replayed completed-session event used for claim C2. -/
def c2Event : StripeEvent :=
  { type := "checkout.session.completed"
    sessionId := "cs_test_replay"
    metadataAmount := some 100 }

/-- Claim C2 (evaluation at the failing input): delivering the identical
completed-session event (same session id) twice from the initial ledger leaves
clickCount at 2 and totalRaised at 200 — the second, replayed delivery
mutates the ledger again instead of being rejected. -/
theorem c2_replay_double_counts :
    (webhook (.ok c2Event) initialProjectData).project.totalClicks = 1 ∧
    (webhook (.ok c2Event) initialProjectData).project.totalRaised = 100 ∧
    (webhook (.ok c2Event)
      (webhook (.ok c2Event) initialProjectData).project).project.totalClicks
      = 2 ∧
    (webhook (.ok c2Event)
      (webhook (.ok c2Event) initialProjectData).project).project.totalRaised
      = 200 ∧
    ¬ ((webhook (.ok c2Event)
          (webhook (.ok c2Event) initialProjectData).project).project =
        (webhook (.ok c2Event) initialProjectData).project) := by
  decide

/-- Claim C3: a webhook delivery whose signature verification fails is
answered 400 and leaves the ledger exactly as it was — no field mutates on the
error path. -/
theorem c3_bad_signature_rejected_no_mutation (msg : String)
    (p : ProjectData) :
    (webhook (.error msg) p).status = 400 ∧
    (webhook (.error msg) p).project = p := ⟨rfl, rfl⟩

/-- Claim C4: for every starting state and every sequence of confirmed
payments during which `totalRaised` never reaches the goal, the final
clickCount is the starting clickCount plus the number of events and the goal
is unchanged. -/
theorem c4_counting_without_crossing (amts : List Nat) (p : ProjectData)
    (h : noCrossing amts p = true) :
    (applyPayments amts p).totalClicks = p.totalClicks + amts.length ∧
    (applyPayments amts p).currentGoal = p.currentGoal := by
  induction amts generalizing p with
  | nil => simp [applyPayments]
  | cons a rest ih =>
    rw [noCrossing, Bool.and_eq_true, decide_eq_true_eq] at h
    obtain ⟨hlt, hrest⟩ := h
    have hgoal : (applyCompletedSession a p).currentGoal = p.currentGoal := by
      rw [applyCompletedSession_eq]
      exact if_neg (not_le.mpr hlt)
    have hclicks : (applyCompletedSession a p).totalClicks =
        p.totalClicks + 1 := rfl
    have hrec := ih (applyCompletedSession a p) hrest
    have hfold : applyPayments (a :: rest) p =
        applyPayments rest (applyCompletedSession a p) := rfl
    rw [hfold]
    refine ⟨?_, ?_⟩
    · rw [hrec.1, hclicks, List.length_cons]
      push_cast
      ring
    · rw [hrec.2, hgoal]

/-- Witness for C4: two payments of 1 unit from the initial ledger never reach
the goal of 1000000, and leave clickCount 2 with the goal unchanged. -/
theorem c4_witness :
    noCrossing [1, 1] initialProjectData = true ∧
    (applyPayments [1, 1] initialProjectData).totalClicks =
      initialProjectData.totalClicks + 2 ∧
    (applyPayments [1, 1] initialProjectData).currentGoal =
      initialProjectData.currentGoal := by
  obtain ⟨h1, h2⟩ :=
    c4_counting_without_crossing [1, 1] initialProjectData (by decide)
  exact ⟨by decide, h2 ▸ h1 ▸ ⟨rfl, rfl⟩⟩

/-- The invalid settings update used against claim C5: a goal of 0. -/
def c5Update : SettingsUpdate := { emptyUpdate with currentGoal := some 0 }

/-- Claim C5 as stated is false on the code: an admin settings update carrying
`currentGoal = 0` (not a positive integer) is not rejected with a
`ValidationError` — it succeeds with 200 and overwrites the goal with 0,
changing the state. -/
theorem c5_counterexample :
    (adminSettings c5Update initialProjectData initialAdminConfig).status
      = 200 ∧
    (adminSettings c5Update initialProjectData
      initialAdminConfig).project.currentGoal = 0 ∧
    ¬ ((adminSettings c5Update initialProjectData
          initialAdminConfig).project = initialProjectData) := by
  decide

/-- Claim C5 amended: the admin settings operation performs no shape
validation at all — for every update (empty charity name, non-positive goal,
donation percent outside 0-100 included) it answers 200 and overwrites each
provided field with the provided value, leaving absent fields unchanged. -/
theorem c5_no_validation_always_succeeds (u : SettingsUpdate)
    (p : ProjectData) (a : AdminConfig) :
    (adminSettings u p a).status = 200 ∧
    (adminSettings u p a).project.charityName
      = u.charityName.getD p.charityName ∧
    (adminSettings u p a).project.currentGoal
      = u.currentGoal.getD p.currentGoal ∧
    (adminSettings u p a).admin.donationPercent
      = u.donationPercent.getD a.donationPercent ∧
    (adminSettings u p a).project.totalClicks = p.totalClicks ∧
    (adminSettings u p a).project.totalRaised = p.totalRaised :=
  ⟨rfl, rfl, rfl, rfl, rfl, rfl⟩

/-- The invalid settings update used against claim C6: a goal of -5. -/
def c6Update : SettingsUpdate := { emptyUpdate with currentGoal := some (-5) }

/-- Claim C6 as stated is false on the code: the state reached from the
initial state by the single administrative settings update carrying
`currentGoal = -5` violates `goal > 0`. -/
theorem c6_counterexample :
    ¬ (0 < (runOps [Op.settings c6Update]
        (initialProjectData, initialAdminConfig)).1.currentGoal) := by
  decide

/-- The ledger part of the C6 invariant. -/
def ledgerInv (p : ProjectData) : Prop :=
  0 ≤ p.totalClicks ∧ 0 < p.currentGoal ∧ 0 ≤ p.totalRaised

/-- Any single operation keeps the counters non-negative. -/
theorem stepOp_counts (s : ProjectData × AdminConfig) (op : Op)
    (h1 : 0 ≤ s.1.totalClicks) (h2 : 0 ≤ s.1.totalRaised) :
    0 ≤ (stepOp s op).1.totalClicks ∧ 0 ≤ (stepOp s op).1.totalRaised := by
  cases op with
  | payment amt =>
    simp only [stepOp, applyCompletedSession_eq]
    constructor
    · omega
    · omega
  | settings u => exact ⟨h1, h2⟩
  | reset => exact ⟨h1, h2⟩

/-- Any single operation whose provided goal (if any) is positive keeps the
goal positive. -/
theorem stepOp_goal (s : ProjectData × AdminConfig) (op : Op)
    (hop : opGoalOk op = true) (hg : 0 < s.1.currentGoal) :
    0 < (stepOp s op).1.currentGoal := by
  cases op with
  | payment amt =>
    simp only [stepOp, applyCompletedSession_eq]
    split
    · omega
    · exact hg
  | settings u =>
    simp only [stepOp, adminSettings]
    cases hc : u.currentGoal with
    | none => simpa [hc, Option.getD] using hg
    | some g =>
      simp only [opGoalOk, hc, decide_eq_true_eq] at hop
      simpa [hc, Option.getD] using hop
  | reset =>
    show (0 : Int) < 1000000
    norm_num

/-- Non-negativity of the counters is preserved along any run. -/
theorem runOps_counts (ops : List Op) (s : ProjectData × AdminConfig)
    (h1 : 0 ≤ s.1.totalClicks) (h2 : 0 ≤ s.1.totalRaised) :
    0 ≤ (runOps ops s).1.totalClicks ∧ 0 ≤ (runOps ops s).1.totalRaised := by
  induction ops generalizing s with
  | nil => exact ⟨h1, h2⟩
  | cons op rest ih =>
    have hstep := stepOp_counts s op h1 h2
    exact ih (stepOp s op) hstep.1 hstep.2

/-- The full invariant is preserved along runs whose operations never supply a
non-positive goal. -/
theorem runOps_inv (ops : List Op) (s : ProjectData × AdminConfig)
    (hops : goodOps ops = true) (h : ledgerInv s.1) :
    ledgerInv (runOps ops s).1 := by
  induction ops generalizing s with
  | nil => exact h
  | cons op rest ih =>
    rw [goodOps, List.all_cons, Bool.and_eq_true] at hops
    have hc := stepOp_counts s op h.1 h.2.2
    have hgl := stepOp_goal s op hops.1 h.2.1
    exact ih (stepOp s op) hops.2 ⟨hc.1, hgl, hc.2⟩

/-- Claim C6 amended: in every state reachable from the initial state,
clickCount >= 0 and totalRaised >= 0 hold unconditionally; goal > 0
additionally holds provided no administrative settings update along the way
supplied a non-positive goal value. -/
theorem c6_invariant_amended (ops : List Op) :
    (0 ≤ (runOps ops (initialProjectData, initialAdminConfig)).1.totalClicks ∧
     0 ≤ (runOps ops (initialProjectData, initialAdminConfig)).1.totalRaised) ∧
    (goodOps ops = true →
      0 < (runOps ops
        (initialProjectData, initialAdminConfig)).1.currentGoal) := by
  constructor
  · exact runOps_counts ops (initialProjectData, initialAdminConfig)
      (by decide) (by decide)
  · intro hops
    exact (runOps_inv ops (initialProjectData, initialAdminConfig) hops
      ⟨by decide, by decide, by decide⟩).2.1

/-- The concrete operation sequence used to witness C6. -/
def c6Ops : List Op :=
  [Op.payment 100,
   Op.settings { emptyUpdate with currentGoal := some 2, donationPercent := some 30 },
   Op.payment 150,
   Op.reset]

/-- Witness for C6: a concrete run mixing payments, a settings update with a
positive goal, and a reset satisfies the invariant's conclusion. -/
theorem c6_witness :
    goodOps c6Ops = true ∧
    (0 ≤ (runOps c6Ops (initialProjectData, initialAdminConfig)).1.totalClicks ∧
     0 ≤ (runOps c6Ops (initialProjectData, initialAdminConfig)).1.totalRaised) ∧
    0 < (runOps c6Ops (initialProjectData, initialAdminConfig)).1.currentGoal := by
  obtain ⟨ha, hb⟩ := c6_invariant_amended c6Ops
  exact ⟨by decide, ha, hb (by decide)⟩

/-- Claim C7: the checkout-session endpoint never mutates the ledger; an
unsupported currency is answered 400 with no gateway call; a supported
currency is answered 200 with the session url when the gateway succeeds, and
500 with the ledger untouched when the gateway fails. -/
theorem c7_checkout_currency_gate (currency : String)
    (gw : Except Unit String) (p : ProjectData) :
    (createCheckoutSession currency gw p).project = p ∧
    (PRICE_IDS.lookup currency = none →
      createCheckoutSession currency gw p =
        { status := 400, url := none, project := p, gatewayCalled := false }) ∧
    ((PRICE_IDS.lookup currency).isSome = true →
      (∀ u, gw = .ok u →
        createCheckoutSession currency gw p =
          { status := 200, url := some u, project := p,
            gatewayCalled := true }) ∧
      (∀ e, gw = .error e →
        (createCheckoutSession currency gw p).status = 500 ∧
        (createCheckoutSession currency gw p).url = none)) := by
  unfold createCheckoutSession
  cases hl : PRICE_IDS.lookup currency with
  | none =>
    refine ⟨rfl, fun _ => rfl, fun hs => ?_⟩
    simp at hs
  | some pid =>
    cases gw with
    | ok u =>
      refine ⟨rfl, fun hn => ?_, fun _ => ⟨fun v hv => ?_, fun e he => ?_⟩⟩
      · exact absurd hn (by simp)
      · cases hv; rfl
      · cases he
    | error e =>
      refine ⟨rfl, fun hn => ?_, fun _ => ⟨fun v hv => ?_, fun f hf => ?_⟩⟩
      · exact absurd hn (by simp)
      · cases hv
      · exact ⟨rfl, rfl⟩

/-- Witness for C7: the unrecognized code XYZ is rejected with 400 and no
gateway call; USD succeeds with the gateway url, and fails closed with 500
when the gateway errors. -/
theorem c7_witness :
    createCheckoutSession "XYZ" (.error ()) initialProjectData =
      { status := 400, url := none, project := initialProjectData,
        gatewayCalled := false } ∧
    createCheckoutSession "USD" (.ok "https://checkout.example/s1")
        initialProjectData =
      { status := 200, url := some "https://checkout.example/s1",
        project := initialProjectData, gatewayCalled := true } ∧
    (createCheckoutSession "USD" (.error ()) initialProjectData).status
      = 500 ∧
    (createCheckoutSession "USD" (.error ()) initialProjectData).url
      = none := by
  refine ⟨?_, ?_, ?_, ?_⟩
  · exact (c7_checkout_currency_gate "XYZ" (.error ())
      initialProjectData).2.1 (by decide)
  · exact ((c7_checkout_currency_gate "USD" (.ok "https://checkout.example/s1")
      initialProjectData).2.2 (by decide)).1 _ rfl
  · exact (((c7_checkout_currency_gate "USD" (.error ())
      initialProjectData).2.2 (by decide)).2 () rfl).1
  · exact (((c7_checkout_currency_gate "USD" (.error ())
      initialProjectData).2.2 (by decide)).2 () rfl).2

/-- Claim C8: the country-to-currency lookup is total and never fails — every
unmapped country code yields the US-dollar default, and every mapped code
yields its configured currency. -/
theorem c8_currency_lookup_total (country : String) :
    (COUNTRY_CURRENCY_MAP.lookup country = none →
      getCurrencyForCountry country = "USD") ∧
    ∀ c, COUNTRY_CURRENCY_MAP.lookup country = some c →
      getCurrencyForCountry country = c := by
  unfold getCurrencyForCountry
  exact ⟨fun h => by rw [h]; rfl, fun c h => by rw [h]; rfl⟩

/-- Witness for C8: ZZ is unmapped and falls back to USD; BR maps to BRL. -/
theorem c8_witness :
    getCurrencyForCountry "ZZ" = "USD" ∧
    getCurrencyForCountry "BR" = "BRL" :=
  ⟨(c8_currency_lookup_total "ZZ").1 (by decide),
   (c8_currency_lookup_total "BR").2 "BRL" (by decide)⟩

/-- Reduction of the webhook on a successfully verified event. -/
theorem webhook_ok (ev : StripeEvent) (p : ProjectData) :
    webhook (.ok ev) p =
      if ev.type = "checkout.session.completed" then
        { status := 200, receivedTrue := true,
          project := applyCompletedSession (ev.metadataAmount.getD 100) p }
      else { status := 200, receivedTrue := true, project := p } := rfl

/-- Claim C9: a validly-signed event whose type is not
checkout.session.completed is answered 200 with received true and leaves the
whole ledger (every field, charityName included) unchanged. -/
theorem c9_other_events_ignored (ev : StripeEvent) (p : ProjectData)
    (h : ev.type ≠ "checkout.session.completed") :
    webhook (.ok ev) p =
      { status := 200, receivedTrue := true, project := p } := by
  rw [webhook_ok, if_neg h]

/-- A validly-signed event of a non-completion type, used to witness C9. -/
def c9Event : StripeEvent :=
  { type := "payment_intent.succeeded"
    sessionId := "cs_w9"
    metadataAmount := some 100 }

/-- Witness for C9: a payment_intent.succeeded event is accepted but leaves
the initial ledger untouched. -/
theorem c9_witness :
    webhook (.ok c9Event) initialProjectData =
      { status := 200, receivedTrue := true,
        project := initialProjectData } :=
  c9_other_events_ignored c9Event initialProjectData (by decide)

/-- Claim C10: the admin reset keeps totalClicks and totalRaised, restores
currentGoal to 1000000 and charityName to Jocum, and restores every
admin-config field to its default. -/
theorem c10_reset_preserves_counters (p : ProjectData) (a : AdminConfig) :
    (adminReset p a).status = 200 ∧
    (adminReset p a).project.totalClicks = p.totalClicks ∧
    (adminReset p a).project.totalRaised = p.totalRaised ∧
    (adminReset p a).project.currentGoal = 1000000 ∧
    (adminReset p a).project.charityName = "Jocum" ∧
    (adminReset p a).admin = initialAdminConfig :=
  ⟨rfl, rfl, rfl, rfl, rfl, rfl⟩
